import Mathlib

/-!
Shallow embedding of the migration-orchestration core of `gei-migration-mcp`
(TypeScript). The embedded modules are:

* `src/services/session.ts` — per-connection credential registry and the
  three credential resolvers (`getGitHubSourcePAT`, `getGitHubTargetPAT`,
  `getADOPAT`);
* `src/services/state.ts` — the persisted migration state store
  (`addActiveMigration`, `updateMigrationState`, `saveMigrationSource`,
  `getMigrationSource`, `loadState`, `saveState`);
* the `migrate_repo` / `wait_for_migration` / `abort_migration` tool
  bodies from `src/tools/index.ts`;
* the SSE connection-open handler from `src/index.ts` (`startHttp`).

JavaScript `string | undefined` values are modelled as `Option String`,
with JS truthiness (`undefined` and `""` are falsy) made explicit by
`truthy`.  The process environment is a record of the four variables the
code reads.  `Map` / plain-object stores are association lists with
JavaScript `Map.set` / property-assignment update semantics (`assocSet`).
Functions that `throw` are embedded in `Except String`.
-/

namespace Gei

/-- JS truthiness of a `string | undefined` value: `undefined` and `""`
are falsy, every other string is truthy. -/
def truthy : Option String → Bool
  | none => false
  | some s => !(s == "")

/-- JS `a || b` on `string | undefined` values. -/
def jsOr (a b : Option String) : Option String :=
  if truthy a then a else b

/-- Association-list lookup, modelling JS `Map.get` / object indexing. -/
def assocGet {α : Type} (m : List (String × α)) (k : String) : Option α :=
  (m.find? (fun p => p.1 == k)).map (fun p => p.2)

/-- Association-list update, modelling JS `Map.set` / object property
assignment: an existing key keeps its position, a new key is appended. -/
def assocSet {α : Type} (m : List (String × α)) (k : String) (v : α) :
    List (String × α) :=
  match m with
  | [] => [(k, v)]
  | p :: rest =>
    if p.1 == k then (k, v) :: rest else p :: assocSet rest k v

/-- Association-list deletion, modelling JS `Map.delete`. -/
def assocDelete {α : Type} (m : List (String × α)) (k : String) :
    List (String × α) :=
  m.filter (fun p => !(p.1 == k))

/-- `SessionCredentials` from `src/services/session.ts`: three independent
optional secrets. -/
structure SessionCredentials where
  githubSourcePat : Option String
  githubTargetPat : Option String
  adoPat : Option String
deriving DecidableEq, Repr

/-- The module-level `sessionCredentials` map of `session.ts`, keyed by the
MCP transport session id. -/
abbrev SessionMap := List (String × SessionCredentials)

/-- The four environment variables read by `session.ts`. -/
structure Env where
  GH_SOURCE_PAT : Option String
  GITHUB_TOKEN : Option String
  GH_PAT : Option String
  ADO_PAT : Option String
deriving DecidableEq, Repr

/-- `setSessionCredentials` from `session.ts` (`Map.set`). -/
def setSessionCredentials (store : SessionMap) (sessionId : String)
    (credentials : SessionCredentials) : SessionMap :=
  assocSet store sessionId credentials

/-- `getSessionCredentials` from `session.ts` (`Map.get`). -/
def getSessionCredentials (store : SessionMap) (sessionId : String) :
    Option SessionCredentials :=
  assocGet store sessionId

/-- `clearSessionCredentials` from `session.ts` (`Map.delete`). -/
def clearSessionCredentials (store : SessionMap) (sessionId : String) :
    SessionMap :=
  assocDelete store sessionId

/-- The session-scoped branch shared by the three resolvers of
`session.ts`: when a session id is given and its entry holds a truthy
value for the selected secret, that value; otherwise nothing (fall
through to the environment). -/
def sessionVal (f : SessionCredentials → Option String) (store : SessionMap)
    (sessionId : Option String) : Option String :=
  match sessionId with
  | none => none
  | some sid =>
    match getSessionCredentials store sid with
    | none => none
    | some creds => if truthy (f creds) then f creds else none

/-- `getGitHubSourcePAT` from `session.ts`: session value, else
`GH_SOURCE_PAT`, else `GITHUB_TOKEN`, else throw. -/
def getGitHubSourcePAT (store : SessionMap) (env : Env)
    (sessionId : Option String) : Except String String :=
  match sessionVal (fun c => c.githubSourcePat) store sessionId with
  | some v => Except.ok v
  | none =>
    let token := jsOr env.GH_SOURCE_PAT env.GITHUB_TOKEN
    if truthy token then Except.ok (token.getD "")
    else Except.error
      "GitHub source PAT not configured. Provide via X-GitHub-Source-PAT header or GITHUB_TOKEN env var."

/-- `getGitHubTargetPAT` from `session.ts`: session value, else `GH_PAT`,
else `GITHUB_TOKEN`, else throw. -/
def getGitHubTargetPAT (store : SessionMap) (env : Env)
    (sessionId : Option String) : Except String String :=
  match sessionVal (fun c => c.githubTargetPat) store sessionId with
  | some v => Except.ok v
  | none =>
    let token := jsOr env.GH_PAT env.GITHUB_TOKEN
    if truthy token then Except.ok (token.getD "")
    else Except.error
      "GitHub target PAT not configured. Provide via X-GitHub-Target-PAT header or GH_PAT env var."

/-- `getADOPAT` from `session.ts`: session value, else `ADO_PAT` unless it
is falsy or the literal sentinel `"not-configured"`, else throw.  Note the
sentinel test applies only to the environment value. -/
def getADOPAT (store : SessionMap) (env : Env) (sessionId : Option String) :
    Except String String :=
  match sessionVal (fun c => c.adoPat) store sessionId with
  | some v => Except.ok v
  | none =>
    let token := env.ADO_PAT
    if !(truthy token) || token == some "not-configured" then
      Except.error
        "Azure DevOps PAT not configured. Provide via X-ADO-PAT header or ADO_PAT env var."
    else Except.ok (token.getD "")

/-- `MigrationRecord` from `src/services/state.ts`. The `source` field is
the origin platform tag (`"github"` or `"ado"`). -/
structure MigrationRecord where
  id : String
  sourceOrg : String
  targetOrg : String
  repoName : String
  state : String
  startedAt : String
  completedAt : Option String
  source : String
deriving DecidableEq, Repr

/-- `StateData` from `state.ts`: the persisted root. The
`migrationSources` object is an association list keyed by origin-org
URL. -/
structure StateData where
  activeMigrations : List MigrationRecord
  migrationHistory : List MigrationRecord
  migrationSources : List (String × String)
deriving DecidableEq, Repr

/-- The empty root returned by `loadState` when no state file exists. -/
def emptyStateData : StateData :=
  { activeMigrations := [], migrationHistory := [], migrationSources := [] }

/-- The terminal-state list hard-coded in `updateMigrationState`
(`state.ts` line 55) and in the `wait_for_migration` poll loop
(`tools/index.ts` line 392): `ABORTED` is absent from it. -/
def providerTerminalStates : List String :=
  ["SUCCEEDED", "FAILED", "FAILED_VALIDATION"]

/-- In-place mutation of the first array element with the given id, as
performed through the aliased result of `Array.prototype.find` in
`updateMigrationState`. -/
def updateFirst (l : List MigrationRecord) (id : String)
    (f : MigrationRecord → MigrationRecord) : List MigrationRecord :=
  match l with
  | [] => []
  | x :: xs => if x.id == id then f x :: xs else x :: updateFirst xs id f

/-- `addActiveMigration` from `state.ts` (content level: the
load/mutate/save composition acting on the decoded root). -/
def addActiveMigration (st : StateData) (migration : MigrationRecord) :
    StateData :=
  { st with activeMigrations := st.activeMigrations ++ [migration] }

/-- `updateMigrationState` from `state.ts`: find the record in the active
list; if absent, write the root back unchanged; otherwise set its state
and, when the new state is in `providerTerminalStates`, set `completedAt`
to the current time, append the record to history and remove every record
with that id from the active list. `now` makes the
`new Date().toISOString()` call explicit. -/
def updateMigrationState (st : StateData) (id newState now : String) :
    StateData :=
  match st.activeMigrations.find? (fun m => m.id == id) with
  | none => st
  | some m =>
    if newState ∈ providerTerminalStates then
      { st with
        migrationHistory :=
          st.migrationHistory ++ [{ m with state := newState, completedAt := some now }],
        activeMigrations := st.activeMigrations.filter (fun x => !(x.id == id)) }
    else
      { st with
        activeMigrations :=
          updateFirst st.activeMigrations id (fun x => { x with state := newState }) }

/-- `getActiveMigrations` from `state.ts`. -/
def getActiveMigrations (st : StateData) : List MigrationRecord :=
  st.activeMigrations

/-- `getMigrationHistory` from `state.ts`. -/
def getMigrationHistory (st : StateData) : List MigrationRecord :=
  st.migrationHistory

/-- `saveMigrationSource` from `state.ts`. -/
def saveMigrationSource (st : StateData) (sourceOrgUrl migrationSourceId : String) :
    StateData :=
  { st with migrationSources := assocSet st.migrationSources sourceOrgUrl migrationSourceId }

/-- `getMigrationSource` from `state.ts`. -/
def getMigrationSource (st : StateData) (sourceOrgUrl : String) : Option String :=
  assocGet st.migrationSources sourceOrgUrl

/-- Result of the ensure-source block: the id used, the store afterwards,
and how many times `github.createMigrationSource` was invoked. -/
structure EnsureResult where
  id : String
  store : StateData
  createCalls : Nat
deriving DecidableEq, Repr

/-- The ensure-source block of the `migrate_repo` tool
(`tools/index.ts` lines 281–286): look up the cached migration source for
the origin-org URL; if the cached value is falsy (`undefined` or `""`),
call the external create operation — whose provider-assigned result is the
explicit `createdId` argument — and persist the mapping. -/
def ensureMigrationSource (st : StateData) (sourceOrgUrl : String)
    (createdId : String) : EnsureResult :=
  let cached := getMigrationSource st sourceOrgUrl
  if truthy cached then
    { id := cached.getD "", store := st, createCalls := 0 }
  else
    { id := createdId,
      store := saveMigrationSource st sourceOrgUrl createdId,
      createCalls := 1 }

/-!
JSON persistence model for `loadState` / `saveState` (`state.ts` lines
31–42).  The backing file is `Option Json` (`none` = no file yet).  All
persisted fields are strings, arrays of records, or string-valued
objects, so a string-only JSON universe suffices.  `JSON.stringify`
serialises object properties in insertion order and omits `undefined`
fields (the optional `completedAt`); `JSON.parse` of the written text
recovers the same object, which the code uses without validation —
modelled by `decodeState`.
-/

/-- JSON values as persisted by `state.ts` (strings only at the leaves). -/
inductive Json where
  | str (s : String)
  | arr (elems : List Json)
  | obj (fields : List (String × Json))

/-- Field lookup on a JSON object. -/
def jGet (j : Json) (k : String) : Option Json :=
  match j with
  | Json.obj fields => (fields.find? (fun p => p.1 == k)).map (fun p => p.2)
  | _ => none

/-- String-field lookup on a JSON object. -/
def jGetStr (j : Json) (k : String) : Option String :=
  match jGet j k with
  | some (Json.str s) => some s
  | _ => none

/-- Serialisation of one `MigrationRecord`, with `completedAt` omitted
when absent, in declaration order as `JSON.stringify` writes it. -/
def encodeRecord (m : MigrationRecord) : Json :=
  Json.obj
    ([("id", Json.str m.id),
      ("sourceOrg", Json.str m.sourceOrg),
      ("targetOrg", Json.str m.targetOrg),
      ("repoName", Json.str m.repoName),
      ("state", Json.str m.state),
      ("startedAt", Json.str m.startedAt)]
     ++ (match m.completedAt with
         | none => []
         | some c => [("completedAt", Json.str c)])
     ++ [("source", Json.str m.source)])

/-- Reading one record back: the field accesses the code performs on the
parsed object. -/
def decodeRecord (j : Json) : Option MigrationRecord :=
  match jGetStr j "id", jGetStr j "sourceOrg", jGetStr j "targetOrg",
        jGetStr j "repoName", jGetStr j "state", jGetStr j "startedAt",
        jGetStr j "source" with
  | some i, some so, some tg, some rn, some stt, some sa, some src =>
    some { id := i, sourceOrg := so, targetOrg := tg, repoName := rn,
           state := stt, startedAt := sa,
           completedAt := jGetStr j "completedAt", source := src }
  | _, _, _, _, _, _, _ => none

/-- Reading back a record array. -/
def decodeRecordList : List Json → Option (List MigrationRecord)
  | [] => some []
  | j :: js =>
    match decodeRecord j, decodeRecordList js with
    | some m, some ms => some (m :: ms)
    | _, _ => none

/-- Reading back the string-valued `migrationSources` object. -/
def decodeSourceList : List (String × Json) → Option (List (String × String))
  | [] => some []
  | p :: rest =>
    match p.2 with
    | Json.str s =>
      match decodeSourceList rest with
      | some r => some ((p.1, s) :: r)
      | none => none
    | _ => none

/-- Serialisation of the persisted root, in the property order of
`StateData`. -/
def encodeState (st : StateData) : Json :=
  Json.obj
    [("activeMigrations", Json.arr (st.activeMigrations.map encodeRecord)),
     ("migrationHistory", Json.arr (st.migrationHistory.map encodeRecord)),
     ("migrationSources",
      Json.obj (st.migrationSources.map (fun p => (p.1, Json.str p.2))))]

/-- Reading the persisted root back from parsed JSON. -/
def decodeState (j : Json) : Option StateData :=
  match jGet j "activeMigrations", jGet j "migrationHistory",
        jGet j "migrationSources" with
  | some a, some h, some s =>
    match a, s with
    | Json.arr aElems, Json.obj sFields =>
      match h with
      | Json.arr hElems =>
        match decodeRecordList aElems, decodeRecordList hElems,
              decodeSourceList sFields with
        | some a', some h', some s' =>
          some { activeMigrations := a', migrationHistory := h',
                 migrationSources := s' }
        | _, _, _ => none
      | _ => none
    | _, _ => none
  | _, _, _ => none

/-- `loadState` from `state.ts`: an absent file yields the empty root;
otherwise the file content is parsed and read. -/
def loadState (file : Option Json) : Option StateData :=
  match file with
  | none => some emptyStateData
  | some j => decodeState j

/-- `saveState` from `state.ts`: serialise the root and overwrite the
file. -/
def saveState (st : StateData) : Option Json :=
  some (encodeState st)

/-- File-level `addActiveMigration`: load, push, save (`state.ts` lines
44–48). -/
def addActiveMigrationFile (file : Option Json) (m : MigrationRecord) :
    Option (Option Json) :=
  match loadState file with
  | some st => some (saveState (addActiveMigration st m))
  | none => none

/-- Writing a list of records through `addActiveMigration`, one full
load/mutate/save cycle each. -/
def writeAllRecords (file : Option Json) :
    List MigrationRecord → Option (Option Json)
  | [] => some file
  | m :: ms =>
    match addActiveMigrationFile file m with
    | some f' => writeAllRecords f' ms
    | none => none

/-!
Provider model for the `wait_for_migration` / `abort_migration` tools.
The external provider (`src/services/github-api.ts`) holds the real
migrations; `getMigrationStatus` is a read, `abortMigration` a mutation.
The tool loop is embedded with explicit fuel (the number of poll
iterations the timeout budget allows) and an explicit trace of the
provider calls it issues.
-/

/-- Calls the tools make against `github-api.ts`. -/
inductive ProviderCall where
  | getStatus (id : String)
  | abort (id : String)
deriving DecidableEq, Repr

/-- The provider's own migration table: id ↦ current state. -/
structure Provider where
  migrations : List (String × String)
deriving DecidableEq, Repr

/-- `github.getMigrationStatus`: a pure read of the provider table. -/
def getMigrationStatusP (p : Provider) (id : String) : Option String :=
  assocGet p.migrations id

/-- Effect of one provider call: status reads leave the provider
untouched; `abortRepositoryMigration` cancels (here: removes) the
migration. -/
def applyCall (p : Provider) : ProviderCall → Provider
  | ProviderCall.getStatus _ => p
  | ProviderCall.abort i =>
    { migrations := p.migrations.filter (fun q => !(q.1 == i)) }

/-- Replay of a call trace against the provider. -/
def providerAfter (p : Provider) (calls : List ProviderCall) : Provider :=
  calls.foldl applyCall p

/-- `refreshStatus` (the `get_migration_status` tool body,
`tools/index.ts` lines 330–340): query the provider, mirror the state
into the store; fails when the provider does not know the id. -/
def refreshStatus (p : Provider) (st : StateData) (id now : String) :
    Option (String × StateData) :=
  match getMigrationStatusP p id with
  | some s => some (s, updateMigrationState st id s now)
  | none => none

/-- Result of the `wait_for_migration` loop. -/
structure WaitResult where
  completed : Bool
  finalState : Option String
  store : StateData
  calls : List ProviderCall
deriving Repr

/-- The `wait_for_migration` poll loop (`tools/index.ts` lines 384–418):
while the budget lasts, read the provider state (`statusAt k` is what the
provider reports at poll `k`), mirror it into the store, and stop with
`completed := true` on a state in `providerTerminalStates`; when the
budget runs out, return `completed := false`.  The call trace records
every provider call issued. -/
def waitForMigration (statusAt : Nat → String) (k fuel : Nat)
    (st : StateData) (id now : String) : WaitResult :=
  match fuel with
  | 0 => { completed := false, finalState := none, store := st, calls := [] }
  | Nat.succ n =>
    let s := statusAt k
    let st1 := updateMigrationState st id s now
    if s ∈ providerTerminalStates then
      { completed := true, finalState := some s, store := st1,
        calls := [ProviderCall.getStatus id] }
    else
      let r := waitForMigration statusAt (k + 1) n st1 id now
      { completed := r.completed, finalState := r.finalState,
        store := r.store, calls := ProviderCall.getStatus id :: r.calls }

/-- The `abort_migration` tool body (`tools/index.ts` lines 429–432):
request provider cancellation, then mark the local record `ABORTED`. -/
def abortMigrationTool (p : Provider) (st : StateData) (id now : String) :
    Provider × StateData × List ProviderCall :=
  (applyCall p (ProviderCall.abort id),
   updateMigrationState st id "ABORTED" now,
   [ProviderCall.abort id])

/-!
SSE connection-open handler (`startHttp` in `src/index.ts`): credential
extraction from headers and query parameters, and the conditional session
registration.
-/

/-- The header and query fields `startHttp` reads on `GET /sse`. -/
structure HttpRequest where
  headerGithubSourcePat : Option String
  headerGithubTargetPat : Option String
  headerAdoPat : Option String
  queryGhSourcePat : Option String
  queryGithubToken : Option String
  queryGhPat : Option String
  queryAdoPat : Option String
deriving DecidableEq, Repr

/-- Credential extraction (`index.ts` lines 72–83): header first, then
query fallback(s), via JS `||`. -/
def extractCredentials (req : HttpRequest) : SessionCredentials :=
  { githubSourcePat :=
      jsOr (jsOr req.headerGithubSourcePat req.queryGhSourcePat)
        req.queryGithubToken,
    githubTargetPat := jsOr req.headerGithubTargetPat req.queryGhPat,
    adoPat := jsOr req.headerAdoPat req.queryAdoPat }

/-- `hasCredentials` (`index.ts` line 86): truthiness of
`credentials.githubSourcePat || credentials.githubTargetPat` — the ADO
secret does not count. -/
def hasCredentials (credentials : SessionCredentials) : Bool :=
  truthy credentials.githubSourcePat || truthy credentials.githubTargetPat

/-- The session-registration step of the `/sse` handler (`index.ts` lines
85–95): store the extracted credentials under the fresh session id only
when at least one GitHub secret was supplied. -/
def handleSseOpen (store : SessionMap) (sessionId : String)
    (req : HttpRequest) : SessionMap :=
  let credentials := extractCredentials req
  if hasCredentials credentials then
    setSessionCredentials store sessionId credentials
  else store

/-!
Substring test used to state that an error message names the expected
header and environment variable.
-/

/-- List-prefix test on characters. -/
def charsStart : List Char → List Char → Bool
  | _, [] => true
  | [], _ :: _ => false
  | c :: cs, p :: ps => c == p && charsStart cs ps

/-- Contiguous-sublist test on characters. -/
def charsHave : List Char → List Char → Bool
  | [], pat => pat.isEmpty
  | c :: cs, pat => charsStart (c :: cs) pat || charsHave cs pat

/-- `strHas s pat`: `pat` occurs contiguously in `s`. -/
def strHas (s pat : String) : Bool :=
  charsHave s.data pat.data

/-!  Concrete fixtures used by witnesses and counterexamples. -/

/-- Session credentials carrying only an origin-platform secret. -/
def credsTokA : SessionCredentials :=
  { githubSourcePat := some "tok-A", githubTargetPat := none, adoPat := none }

/-- Session credentials whose ADO secret is the literal sentinel. -/
def credsSentinel : SessionCredentials :=
  { githubSourcePat := none, githubTargetPat := none,
    adoPat := some "not-configured" }

/-- Environment with no variables set. -/
def envNone : Env :=
  { GH_SOURCE_PAT := none, GITHUB_TOKEN := none, GH_PAT := none,
    ADO_PAT := none }

/-- Environment with all four variables set. -/
def envFull : Env :=
  { GH_SOURCE_PAT := some "env-src", GITHUB_TOKEN := some "env-tok",
    GH_PAT := some "env-tgt", ADO_PAT := some "env-ado" }

/-- An in-flight migration record with id `"m-1"`. -/
def recM1 : MigrationRecord :=
  { id := "m-1", sourceOrg := "acme", targetOrg := "octo-target",
    repoName := "widgets", state := "IN_PROGRESS",
    startedAt := "2024-01-01T00:00:00Z", completedAt := none,
    source := "github" }

/-- A store whose active set holds exactly `recM1`. -/
def stM1 : StateData :=
  { activeMigrations := [recM1], migrationHistory := [],
    migrationSources := [] }

/-- A provider that knows migration `"m-1"`, still in progress. -/
def provider1 : Provider :=
  { migrations := [("m-1", "IN_PROGRESS")] }

/-- A connection request supplying only the ADO secret (via header). -/
def reqAdoOnly : HttpRequest :=
  { headerGithubSourcePat := none, headerGithubTargetPat := none,
    headerAdoPat := some "ado-tok", queryGhSourcePat := none,
    queryGithubToken := none, queryGhPat := none, queryAdoPat := none }

/-- A connection request supplying a source secret via query parameter. -/
def reqSourceOnly : HttpRequest :=
  { headerGithubSourcePat := none, headerGithubTargetPat := none,
    headerAdoPat := none, queryGhSourcePat := some "q-src",
    queryGithubToken := none, queryGhPat := none, queryAdoPat := none }

/-!  Helper lemmas. -/

theorem truthy_jsOr (a b : Option String) :
    truthy (jsOr a b) = (truthy a || truthy b) := by
  unfold jsOr
  by_cases h : truthy a <;> simp [h]

theorem assocGet_nil {α : Type} (k : String) :
    assocGet ([] : List (String × α)) k = none := rfl

theorem assocGet_assocSet_self {α : Type} (m : List (String × α))
    (k : String) (v : α) : assocGet (assocSet m k v) k = some v := by
  induction m with
  | nil => simp [assocGet, assocSet, List.find?]
  | cons hd tl ih =>
    by_cases h : hd.1 == k
    · simp [assocSet, h, assocGet, List.find?]
    · simpa [assocSet, h, assocGet, List.find?] using ih

theorem assocGet_assocSet_ne {α : Type} (m : List (String × α))
    (k k' : String) (v : α) (h : k ≠ k') :
    assocGet (assocSet m k v) k' = assocGet m k' := by
  have hb : (k == k') = false := beq_eq_false_iff_ne.mpr h
  induction m with
  | nil => simp [assocGet, assocSet, List.find?, hb]
  | cons hd tl ih =>
    by_cases hk : hd.1 == k
    · have h1 : (hd.1 == k') = false := by
        rw [beq_eq_false_iff_ne]
        intro hc
        exact h (by rw [← (beq_iff_eq ..).mp hk, hc])
      simp [assocSet, hk, assocGet, List.find?, h, h1]
    · by_cases hk' : hd.1 == k'
      · simp [assocSet, hk, assocGet, List.find?, hk']
      · simpa [assocSet, hk, assocGet, List.find?, hk'] using ih

theorem sessionVal_of_no_entry (f : SessionCredentials → Option String)
    (store : SessionMap) (sid : String)
    (h : getSessionCredentials store sid = none) :
    sessionVal f store (some sid) = none := by
  simp [sessionVal, h]

theorem getGitHubSourcePAT_of_no_entry (store : SessionMap) (env : Env)
    (sid : String) (h : getSessionCredentials store sid = none) :
    getGitHubSourcePAT store env (some sid) = getGitHubSourcePAT [] env none := by
  simp [getGitHubSourcePAT, sessionVal, h]

theorem getGitHubTargetPAT_of_no_entry (store : SessionMap) (env : Env)
    (sid : String) (h : getSessionCredentials store sid = none) :
    getGitHubTargetPAT store env (some sid) = getGitHubTargetPAT [] env none := by
  simp [getGitHubTargetPAT, sessionVal, h]

theorem getADOPAT_of_no_entry (store : SessionMap) (env : Env)
    (sid : String) (h : getSessionCredentials store sid = none) :
    getADOPAT store env (some sid) = getADOPAT [] env none := by
  simp [getADOPAT, sessionVal, h]

/-- C2: with credentials stored only under session id `a`, resolving any
of the three secrets under a distinct session id `b` is exactly
environment-default resolution (the no-session path): `a`'s values are
never consulted, and failure occurs precisely when the environment
defaults are absent. -/
theorem session_isolation (env : Env) (a b : String)
    (credsA : SessionCredentials) (hab : a ≠ b) :
    getGitHubSourcePAT (setSessionCredentials [] a credsA) env (some b)
      = getGitHubSourcePAT [] env none
  ∧ getGitHubTargetPAT (setSessionCredentials [] a credsA) env (some b)
      = getGitHubTargetPAT [] env none
  ∧ getADOPAT (setSessionCredentials [] a credsA) env (some b)
      = getADOPAT [] env none := by
  have h : getSessionCredentials (setSessionCredentials [] a credsA) b = none := by
    unfold getSessionCredentials setSessionCredentials
    rw [assocGet_assocSet_ne _ _ _ _ hab]
    rfl
  exact ⟨getGitHubSourcePAT_of_no_entry _ _ _ h,
         getGitHubTargetPAT_of_no_entry _ _ _ h,
         getADOPAT_of_no_entry _ _ _ h⟩

/-- C2 witness: concrete instance with `a = "A"`, `b = "B"`. -/
theorem session_isolation_witness :
    getGitHubSourcePAT (setSessionCredentials [] "A" credsTokA) envFull (some "B")
      = getGitHubSourcePAT [] envFull none
  ∧ getGitHubTargetPAT (setSessionCredentials [] "A" credsTokA) envFull (some "B")
      = getGitHubTargetPAT [] envFull none
  ∧ getADOPAT (setSessionCredentials [] "A" credsTokA) envFull (some "B")
      = getADOPAT [] envFull none :=
  session_isolation envFull "A" "B" credsTokA (by decide)

/-- C3: the origin-platform resolver follows exactly the chain
session-scoped value → `GH_SOURCE_PAT` → `GITHUB_TOKEN` → error whose
message names both the `X-GitHub-Source-PAT` header and the
`GITHUB_TOKEN` environment variable. -/
theorem sourcePAT_fallback_chain (store : SessionMap) (env : Env)
    (sid : String) :
    (∀ creds v, getSessionCredentials store sid = some creds →
        creds.githubSourcePat = some v → v ≠ "" →
        getGitHubSourcePAT store env (some sid) = Except.ok v)
  ∧ (sessionVal (fun c => c.githubSourcePat) store (some sid) = none →
        ∀ v, env.GH_SOURCE_PAT = some v → v ≠ "" →
        getGitHubSourcePAT store env (some sid) = Except.ok v)
  ∧ (sessionVal (fun c => c.githubSourcePat) store (some sid) = none →
        truthy env.GH_SOURCE_PAT = false →
        ∀ v, env.GITHUB_TOKEN = some v → v ≠ "" →
        getGitHubSourcePAT store env (some sid) = Except.ok v)
  ∧ (sessionVal (fun c => c.githubSourcePat) store (some sid) = none →
        truthy env.GH_SOURCE_PAT = false → truthy env.GITHUB_TOKEN = false →
        ∃ msg, getGitHubSourcePAT store env (some sid) = Except.error msg
          ∧ strHas msg "X-GitHub-Source-PAT" = true
          ∧ strHas msg "GITHUB_TOKEN" = true) := by
  refine ⟨?_, ?_, ?_, ?_⟩
  · intro creds v hc hp hv
    have hs : sessionVal (fun c => c.githubSourcePat) store (some sid) = some v := by
      simp [sessionVal, hc, hp, truthy, hv]
    simp [getGitHubSourcePAT, hs]
  · intro hnone v hv hne
    simp [getGitHubSourcePAT, hnone, jsOr, hv, truthy, hne]
  · intro hnone h1 v hv hne
    have hj : jsOr env.GH_SOURCE_PAT env.GITHUB_TOKEN = some v := by
      unfold jsOr; rw [h1]; simp [hv]
    simp [getGitHubSourcePAT, hnone, hj, truthy, hne]
  · intro hnone h1 h2
    have ht : truthy (jsOr env.GH_SOURCE_PAT env.GITHUB_TOKEN) = false := by
      rw [truthy_jsOr, h1, h2]; rfl
    refine ⟨"GitHub source PAT not configured. Provide via X-GitHub-Source-PAT header or GITHUB_TOKEN env var.",
      ?_, by decide, by decide⟩
    simp [getGitHubSourcePAT, hnone, ht]

/-- C3 witness: the spec's scenario — session `S1` holds `tok-A`, no
environment variables; resolution under `S1` yields `tok-A`, under the
unknown `S2` it fails with a message naming both names. -/
theorem sourcePAT_fallback_chain_witness :
    getGitHubSourcePAT (setSessionCredentials [] "S1" credsTokA) envNone (some "S1")
      = Except.ok "tok-A"
  ∧ ∃ msg,
      getGitHubSourcePAT (setSessionCredentials [] "S1" credsTokA) envNone (some "S2")
        = Except.error msg
      ∧ strHas msg "X-GitHub-Source-PAT" = true
      ∧ strHas msg "GITHUB_TOKEN" = true :=
  ⟨(sourcePAT_fallback_chain (setSessionCredentials [] "S1" credsTokA) envNone "S1").1
      credsTokA "tok-A" (by rfl) (by rfl) (by decide),
   (sourcePAT_fallback_chain (setSessionCredentials [] "S1" credsTokA) envNone "S2").2.2.2
      (by rfl) (by rfl) (by rfl)⟩

/-- C4 counterexample: a session-scoped ADO secret equal to the literal
sentinel `"not-configured"` is returned as a real secret, so resolution
does return the sentinel, contradicting the claim. -/
theorem getADOPAT_sentinel_counterexample :
    getADOPAT (setSessionCredentials [] "S1" credsSentinel) envNone (some "S1")
      = Except.ok "not-configured" := by rfl

/-- C4 (amended): only the environment candidate is tested against the
sentinel — a truthy session-scoped ADO value is returned as-is (sentinel
included), an environment value equal to the sentinel is treated as
absent and resolution fails, and any other truthy environment value is
returned. -/
theorem getADOPAT_sentinel (store : SessionMap) (env : Env) (sid : String) :
    (∀ creds v, getSessionCredentials store sid = some creds →
        creds.adoPat = some v → v ≠ "" →
        getADOPAT store env (some sid) = Except.ok v)
  ∧ (sessionVal (fun c => c.adoPat) store (some sid) = none →
        env.ADO_PAT = some "not-configured" →
        getADOPAT store env (some sid) = Except.error
          "Azure DevOps PAT not configured. Provide via X-ADO-PAT header or ADO_PAT env var.")
  ∧ (sessionVal (fun c => c.adoPat) store (some sid) = none →
        ∀ v, env.ADO_PAT = some v → v ≠ "" → v ≠ "not-configured" →
        getADOPAT store env (some sid) = Except.ok v) := by
  refine ⟨?_, ?_, ?_⟩
  · intro creds v hc hp hv
    have hs : sessionVal (fun c => c.adoPat) store (some sid) = some v := by
      simp [sessionVal, hc, hp, truthy, hv]
    simp [getADOPAT, hs]
  · intro hnone hado
    simp [getADOPAT, hnone, hado]
  · intro hnone v hv hne hns
    simp [getADOPAT, hnone, hv, truthy, hne, hns]

/-- C4 witness for the amended statement: the sentinel-valued session
secret is returned, a sentinel-valued environment variable causes
failure, and an ordinary environment value is returned. -/
theorem getADOPAT_sentinel_witness :
    getADOPAT (setSessionCredentials [] "S1" credsSentinel) envNone (some "S1")
      = Except.ok "not-configured"
  ∧ getADOPAT []
      { GH_SOURCE_PAT := none, GITHUB_TOKEN := none, GH_PAT := none,
        ADO_PAT := some "not-configured" } (some "S1")
      = Except.error
        "Azure DevOps PAT not configured. Provide via X-ADO-PAT header or ADO_PAT env var."
  ∧ getADOPAT [] envFull (some "S1") = Except.ok "env-ado" :=
  ⟨(getADOPAT_sentinel (setSessionCredentials [] "S1" credsSentinel) envNone "S1").1
      credsSentinel "not-configured" (by rfl) (by rfl) (by decide),
   (getADOPAT_sentinel []
      { GH_SOURCE_PAT := none, GITHUB_TOKEN := none, GH_PAT := none,
        ADO_PAT := some "not-configured" } "S1").2.1 (by rfl) (by rfl),
   (getADOPAT_sentinel [] envFull "S1").2.2 (by rfl) "env-ado" (by rfl)
      (by decide) (by decide)⟩

/-- C1 counterexample: after the `abort_migration` tool marks record
`m-1` `ABORTED`, the record is still in the active list (with no
completion timestamp) and the history list is empty — `ABORTED` is not in
the hard-coded terminal list of `updateMigrationState`, so no promotion
to history happens. -/
theorem terminal_promotion_counterexample :
    (updateMigrationState stM1 "m-1" "ABORTED" "2024-01-01T01:00:00Z").migrationHistory
      = []
  ∧ (updateMigrationState stM1 "m-1" "ABORTED" "2024-01-01T01:00:00Z").activeMigrations
      = [{ recM1 with state := "ABORTED" }] := by
  constructor <;> rfl

/-- C1 (amended): for a record present in the active set, updating to
`SUCCEEDED`, `FAILED` or `FAILED_VALIDATION` appends exactly that record
to history with `completedAt` set to the update instant and removes it
from active; updating to `ABORTED` only rewrites the record's state in
place in the active list — history, membership and `completedAt` are
untouched. -/
theorem terminal_promotion (st : StateData) (id ns now : String)
    (m : MigrationRecord)
    (hfind : st.activeMigrations.find? (fun x => x.id == id) = some m) :
    (ns ∈ providerTerminalStates →
       (updateMigrationState st id ns now).migrationHistory
         = st.migrationHistory
             ++ [{ m with state := ns, completedAt := some now }]
       ∧ (updateMigrationState st id ns now).activeMigrations
         = st.activeMigrations.filter (fun x => !(x.id == id)))
  ∧ ((updateMigrationState st id "ABORTED" now).migrationHistory
       = st.migrationHistory
     ∧ (updateMigrationState st id "ABORTED" now).activeMigrations
       = updateFirst st.activeMigrations id
           (fun x => { x with state := "ABORTED" })) := by
  constructor
  · intro hns
    simp only [updateMigrationState, hfind]
    rw [if_pos hns]
    exact ⟨rfl, rfl⟩
  · simp only [updateMigrationState, hfind]
    rw [if_neg (show ¬ ("ABORTED" ∈ providerTerminalStates) by decide)]
    exact ⟨rfl, rfl⟩

/-- C1 witness: record `m-1` promoted on `SUCCEEDED`, left in the active
list on `ABORTED`. -/
theorem terminal_promotion_witness :
    ((updateMigrationState stM1 "m-1" "SUCCEEDED" "t2").migrationHistory
       = stM1.migrationHistory
           ++ [{ recM1 with state := "SUCCEEDED", completedAt := some "t2" }]
     ∧ (updateMigrationState stM1 "m-1" "SUCCEEDED" "t2").activeMigrations
       = stM1.activeMigrations.filter (fun x => !(x.id == "m-1")))
  ∧ ((updateMigrationState stM1 "m-1" "ABORTED" "t2").migrationHistory
       = stM1.migrationHistory
     ∧ (updateMigrationState stM1 "m-1" "ABORTED" "t2").activeMigrations
       = updateFirst stM1.activeMigrations "m-1"
           (fun x => { x with state := "ABORTED" })) :=
  ⟨(terminal_promotion stM1 "m-1" "SUCCEEDED" "t2" recM1 (by rfl)).1 (by decide),
   (terminal_promotion stM1 "m-1" "ABORTED" "t2" recM1 (by rfl)).2⟩

/-- C7 counterexample: a state update whose migration id is unknown
(`m-404` is in neither list of `stM1`) completes and returns the store
unchanged — the embedded `updateMigrationState` is total with no error
outcome, mirroring the `void`-returning source function whose only path
for a missing id is to write the loaded root straight back. -/
theorem unknown_id_counterexample :
    updateMigrationState stM1 "m-404" "SUCCEEDED" "t3" = stM1 := by rfl

/-- C7 (amended): a state update referencing a migration id with no match
in the active list is a silent no-op: it surfaces no failure and leaves
the persisted root exactly as loaded. -/
theorem unknown_id_noop (st : StateData) (id ns now : String)
    (h : st.activeMigrations.find? (fun m => m.id == id) = none) :
    updateMigrationState st id ns now = st := by
  rw [updateMigrationState, h]

/-- C7 witness: no-op on a store that does hold other records. -/
theorem unknown_id_noop_witness :
    updateMigrationState stM1 "m-404" "QUEUED" "t3" = stM1 :=
  unknown_id_noop stM1 "m-404" "QUEUED" "t3" (by rfl)

/-- C10: frame conditions of the store operations — adding an active
migration touches neither history nor the source cache; a state update
never touches the source cache; writing a source-cache entry touches
neither migration list; and a state update to a non-terminal state (not
`SUCCEEDED`, `FAILED`, `FAILED_VALIDATION`, or `ABORTED`) leaves the
history list unchanged. -/
theorem store_frame_conditions (st : StateData) (m : MigrationRecord)
    (id ns now url msid : String) :
    (addActiveMigration st m).migrationSources = st.migrationSources
  ∧ (addActiveMigration st m).migrationHistory = st.migrationHistory
  ∧ (updateMigrationState st id ns now).migrationSources
      = st.migrationSources
  ∧ (saveMigrationSource st url msid).activeMigrations
      = st.activeMigrations
  ∧ (saveMigrationSource st url msid).migrationHistory
      = st.migrationHistory
  ∧ (ns ∉ ["SUCCEEDED", "FAILED", "FAILED_VALIDATION", "ABORTED"] →
       (updateMigrationState st id ns now).migrationHistory
         = st.migrationHistory) := by
  refine ⟨rfl, rfl, ?_, rfl, rfl, ?_⟩
  · rw [updateMigrationState]
    cases st.activeMigrations.find? (fun x => x.id == id) with
    | none => rfl
    | some m' =>
      by_cases h : ns ∈ providerTerminalStates
      · simp [h]
      · simp [h]
  · intro hns
    have h : ns ∉ providerTerminalStates := by
      intro hcont
      apply hns
      simp only [providerTerminalStates, List.mem_cons, List.not_mem_nil,
        or_false] at hcont ⊢
      rcases hcont with h1 | h1 | h1
      · exact Or.inl h1
      · exact Or.inr (Or.inl h1)
      · exact Or.inr (Or.inr (Or.inl h1))
    rw [updateMigrationState]
    cases st.activeMigrations.find? (fun x => x.id == id) with
    | none => rfl
    | some m' => simp [h]

/-- C10 witness: concrete instance on `stM1`, with the non-terminal
update taken at `"QUEUED"`. -/
theorem store_frame_conditions_witness :
    (addActiveMigration stM1 recM1).migrationSources = stM1.migrationSources
  ∧ (addActiveMigration stM1 recM1).migrationHistory = stM1.migrationHistory
  ∧ (updateMigrationState stM1 "m-1" "QUEUED" "t5").migrationSources
      = stM1.migrationSources
  ∧ (saveMigrationSource stM1 "https://github.com/acme" "MS_1").activeMigrations
      = stM1.activeMigrations
  ∧ (saveMigrationSource stM1 "https://github.com/acme" "MS_1").migrationHistory
      = stM1.migrationHistory
  ∧ (updateMigrationState stM1 "m-1" "QUEUED" "t5").migrationHistory
      = stM1.migrationHistory := by
  have h := store_frame_conditions stM1 recM1 "m-1" "QUEUED" "t5"
    "https://github.com/acme" "MS_1"
  exact ⟨h.1, h.2.1, h.2.2.1, h.2.2.2.1, h.2.2.2.2.1,
         h.2.2.2.2.2 (by decide)⟩

/-- C5: with a non-empty provider-assigned id, two sequential
ensure-source calls for the same origin URL yield the same source id, the
external create operation runs at most once across the two calls, and a
truthy cached mapping is returned without any create call and without
touching the store. -/
theorem ensure_source_idempotent (st : StateData) (url cid1 cid2 : String)
    (h1 : cid1 ≠ "") :
    (ensureMigrationSource (ensureMigrationSource st url cid1).store url cid2).id
      = (ensureMigrationSource st url cid1).id
  ∧ (ensureMigrationSource st url cid1).createCalls
      + (ensureMigrationSource (ensureMigrationSource st url cid1).store url cid2).createCalls
      ≤ 1
  ∧ (∀ v, getMigrationSource st url = some v → v ≠ "" →
       (ensureMigrationSource st url cid1).id = v
       ∧ (ensureMigrationSource st url cid1).store = st
       ∧ (ensureMigrationSource st url cid1).createCalls = 0) := by
  by_cases hc : truthy (getMigrationSource st url)
  · refine ⟨?_, ?_, ?_⟩
    · simp [ensureMigrationSource, hc]
    · simp [ensureMigrationSource, hc]
    · intro v hv hvne
      rw [hv] at hc
      simp [ensureMigrationSource, hv, hc]
  · have hsaved : getMigrationSource (saveMigrationSource st url cid1) url
        = some cid1 := by
      unfold getMigrationSource saveMigrationSource
      exact assocGet_assocSet_self _ _ _
    have htc : truthy (some cid1) = true := by simp [truthy, h1]
    refine ⟨?_, ?_, ?_⟩
    · simp [ensureMigrationSource, hc, hsaved, htc]
    · simp [ensureMigrationSource, hc, hsaved, htc]
    · intro v hv hvne
      rw [hv] at hc
      exact absurd (by simp [truthy, hvne]) hc

/-- C5 witness: starting from the empty store, the first call creates
`MS_1` and the second call returns the cached `MS_1` without invoking the
create operation. -/
theorem ensure_source_idempotent_witness :
    (ensureMigrationSource
        (ensureMigrationSource emptyStateData "https://github.com/acme" "MS_1").store
        "https://github.com/acme" "MS_2").id
      = (ensureMigrationSource emptyStateData "https://github.com/acme" "MS_1").id
  ∧ (ensureMigrationSource emptyStateData "https://github.com/acme" "MS_1").createCalls
      + (ensureMigrationSource
          (ensureMigrationSource emptyStateData "https://github.com/acme" "MS_1").store
          "https://github.com/acme" "MS_2").createCalls
      ≤ 1 := by
  have h := ensure_source_idempotent emptyStateData "https://github.com/acme"
    "MS_1" "MS_2" (by decide)
  exact ⟨h.1, h.2.1⟩

theorem waitForMigration_nonterminal (statusAt : Nat → String)
    (hnt : ∀ i, statusAt i ∉ providerTerminalStates) (id now : String) :
    ∀ fuel k st,
      (waitForMigration statusAt k fuel st id now).completed = false
      ∧ (waitForMigration statusAt k fuel st id now).calls
        = List.replicate fuel (ProviderCall.getStatus id) := by
  intro fuel
  induction fuel with
  | zero => intro k st; exact ⟨rfl, rfl⟩
  | succ n ih =>
    intro k st
    have h := hnt k
    simp only [waitForMigration]
    rw [if_neg h]
    refine ⟨(ih (k + 1) _).1, ?_⟩
    rw [List.replicate_succ]
    exact congrArg _ (ih (k + 1) _).2

theorem providerAfter_getStatus (p : Provider) (id : String) (n : Nat) :
    providerAfter p (List.replicate n (ProviderCall.getStatus id)) = p := by
  induction n with
  | zero => rfl
  | succ k ih =>
    rw [List.replicate_succ]
    exact ih

/-- C6: if every state the provider reports during the poll budget is
outside the terminal list, `wait_for_migration` returns
`completed = false`, issues only status reads (never an abort call), so
the provider's migration table is exactly what it was before the wait and
a subsequent `refreshStatus` on the same id still succeeds. -/
theorem wait_timeout_nondestructive (statusAt : Nat → String) (fuel : Nat)
    (p : Provider) (st : StateData) (id now : String)
    (hnt : ∀ i, statusAt i ∉ providerTerminalStates)
    (hex : (getMigrationStatusP p id).isSome = true) :
    (waitForMigration statusAt 0 fuel st id now).completed = false
  ∧ (∀ c ∈ (waitForMigration statusAt 0 fuel st id now).calls,
       ∃ j, c = ProviderCall.getStatus j)
  ∧ providerAfter p (waitForMigration statusAt 0 fuel st id now).calls = p
  ∧ (refreshStatus
       (providerAfter p (waitForMigration statusAt 0 fuel st id now).calls)
       (waitForMigration statusAt 0 fuel st id now).store id now).isSome
      = true := by
  obtain ⟨h1, h2⟩ := waitForMigration_nonterminal statusAt hnt id now fuel 0 st
  have hp : providerAfter p (waitForMigration statusAt 0 fuel st id now).calls
      = p := by
    rw [h2]; exact providerAfter_getStatus p id fuel
  refine ⟨h1, ?_, hp, ?_⟩
  · intro c hc
    rw [h2] at hc
    exact ⟨id, List.eq_of_mem_replicate hc⟩
  · rw [hp]
    cases hg : getMigrationStatusP p id with
    | none => rw [hg] at hex; cases hex
    | some s => simp [refreshStatus, hg]

/-- C6 witness: a provider stuck on `IN_PROGRESS` for two polls — the
wait times out, issues no abort, and `refreshStatus` still succeeds. -/
theorem wait_timeout_nondestructive_witness :
    (waitForMigration (fun _ => "IN_PROGRESS") 0 2 stM1 "m-1" "t4").completed
      = false
  ∧ (∀ c ∈ (waitForMigration (fun _ => "IN_PROGRESS") 0 2 stM1 "m-1" "t4").calls,
       ∃ j, c = ProviderCall.getStatus j)
  ∧ providerAfter provider1
      (waitForMigration (fun _ => "IN_PROGRESS") 0 2 stM1 "m-1" "t4").calls
      = provider1
  ∧ (refreshStatus
       (providerAfter provider1
         (waitForMigration (fun _ => "IN_PROGRESS") 0 2 stM1 "m-1" "t4").calls)
       (waitForMigration (fun _ => "IN_PROGRESS") 0 2 stM1 "m-1" "t4").store
       "m-1" "t4").isSome = true :=
  wait_timeout_nondestructive (fun _ => "IN_PROGRESS") 2 provider1 stM1
    "m-1" "t4"
    (fun _ => show "IN_PROGRESS" ∉ providerTerminalStates by decide) (by rfl)

/-- C9: on connection open, a session entry exists afterwards exactly
when the extracted credentials hold a truthy GitHub source or target
secret; a request carrying only the ADO secret therefore registers
nothing — the store is unchanged, and every resolver under that session
id behaves exactly as environment-default resolution. -/
theorem sse_open_requires_github_secret (store : SessionMap) (env : Env)
    (sid : String) (req : HttpRequest)
    (hfresh : getSessionCredentials store sid = none) :
    ((getSessionCredentials (handleSseOpen store sid req) sid).isSome
       = hasCredentials (extractCredentials req))
  ∧ (truthy (extractCredentials req).githubSourcePat = false →
     truthy (extractCredentials req).githubTargetPat = false →
       handleSseOpen store sid req = store
     ∧ getADOPAT (handleSseOpen store sid req) env (some sid)
         = getADOPAT [] env none
     ∧ getGitHubSourcePAT (handleSseOpen store sid req) env (some sid)
         = getGitHubSourcePAT [] env none
     ∧ getGitHubTargetPAT (handleSseOpen store sid req) env (some sid)
         = getGitHubTargetPAT [] env none) := by
  constructor
  · by_cases h : hasCredentials (extractCredentials req)
    · simp [handleSseOpen, h, getSessionCredentials, setSessionCredentials,
        assocGet_assocSet_self]
    · simp only [Bool.not_eq_true] at h
      simp [handleSseOpen, h, hfresh]
  · intro hgs hgt
    have hnc : hasCredentials (extractCredentials req) = false := by
      simp [hasCredentials, hgs, hgt]
    have he : handleSseOpen store sid req = store := by
      simp [handleSseOpen, hnc]
    rw [he]
    exact ⟨rfl, getADOPAT_of_no_entry _ _ _ hfresh,
           getGitHubSourcePAT_of_no_entry _ _ _ hfresh,
           getGitHubTargetPAT_of_no_entry _ _ _ hfresh⟩

/-- C9 witness: an ADO-only request registers no session entry and falls
through to the environment; a source-secret request does register one. -/
theorem sse_open_requires_github_secret_witness :
    ((getSessionCredentials (handleSseOpen [] "S9" reqAdoOnly) "S9").isSome
       = hasCredentials (extractCredentials reqAdoOnly))
  ∧ (handleSseOpen [] "S9" reqAdoOnly = []
     ∧ getADOPAT (handleSseOpen [] "S9" reqAdoOnly) envFull (some "S9")
         = getADOPAT [] envFull none
     ∧ getGitHubSourcePAT (handleSseOpen [] "S9" reqAdoOnly) envFull (some "S9")
         = getGitHubSourcePAT [] envFull none
     ∧ getGitHubTargetPAT (handleSseOpen [] "S9" reqAdoOnly) envFull (some "S9")
         = getGitHubTargetPAT [] envFull none)
  ∧ ((getSessionCredentials (handleSseOpen [] "S8" reqSourceOnly) "S8").isSome
       = hasCredentials (extractCredentials reqSourceOnly)) :=
  ⟨(sse_open_requires_github_secret [] envFull "S9" reqAdoOnly (by rfl)).1,
   (sse_open_requires_github_secret [] envFull "S9" reqAdoOnly (by rfl)).2
     (by decide) (by decide),
   (sse_open_requires_github_secret [] envFull "S8" reqSourceOnly (by rfl)).1⟩

theorem decodeRecord_encodeRecord (m : MigrationRecord) :
    decodeRecord (encodeRecord m) = some m := by
  cases m with
  | mk i so tg rn stt sa ca src => cases ca <;> rfl

theorem decodeRecordList_map (l : List MigrationRecord) :
    decodeRecordList (l.map encodeRecord) = some l := by
  induction l with
  | nil => rfl
  | cons m ms ih =>
    simp only [List.map_cons, decodeRecordList, decodeRecord_encodeRecord, ih]

theorem decodeSourceList_map (l : List (String × String)) :
    decodeSourceList (l.map (fun p => (p.1, Json.str p.2))) = some l := by
  induction l with
  | nil => rfl
  | cons p ps ih =>
    simp only [List.map_cons, decodeSourceList, ih]

theorem decodeState_encodeState (st : StateData) :
    decodeState (encodeState st) = some st := by
  cases st with
  | mk a h s =>
    have hred : decodeState (encodeState ⟨a, h, s⟩)
        = (match decodeRecordList (a.map encodeRecord),
                 decodeRecordList (h.map encodeRecord),
                 decodeSourceList (s.map (fun p => (p.1, Json.str p.2))) with
           | some a', some h', some s' =>
             some { activeMigrations := a', migrationHistory := h',
                    migrationSources := s' }
           | _, _, _ => none) := rfl
    rw [hred, decodeRecordList_map, decodeRecordList_map, decodeSourceList_map]

theorem writeAllRecords_go (rs : List MigrationRecord) : ∀ st : StateData,
    (writeAllRecords (some (encodeState st)) rs).bind loadState
      = some { st with activeMigrations := st.activeMigrations ++ rs } := by
  induction rs with
  | nil =>
    intro st
    simp [writeAllRecords, loadState, decodeState_encodeState]
  | cons m ms ih =>
    intro st
    have hstep : addActiveMigrationFile (some (encodeState st)) m
        = some (saveState (addActiveMigration st m)) := by
      simp [addActiveMigrationFile, loadState, decodeState_encodeState]
    simp only [writeAllRecords, hstep, saveState]
    rw [ih (addActiveMigration st m)]
    simp [addActiveMigration]

/-- C8: writing any list of migration records through
`addActiveMigration` — each call one full load/mutate/save cycle against
the persisted file — and then reloading the root yields exactly those
records, field-for-field, in insertion order, alongside empty history and
source-cache parts. -/
theorem persistence_roundtrip (rs : List MigrationRecord) :
    (writeAllRecords none rs).bind loadState
      = some { activeMigrations := rs, migrationHistory := [],
               migrationSources := [] } := by
  cases rs with
  | nil => rfl
  | cons m ms =>
    have hstep : addActiveMigrationFile none m
        = some (saveState (addActiveMigration emptyStateData m)) := by
      simp [addActiveMigrationFile, loadState]
    simp only [writeAllRecords, hstep, saveState]
    rw [writeAllRecords_go ms (addActiveMigration emptyStateData m)]
    simp [addActiveMigration, emptyStateData]

end Gei
